import Mathlib

/-!
Verification development for the Spikeling neuron-emulator core
(Arduino Code: Spikeling_V3 Core_functions.h / General_settings.h,
Spikeling_V2.5 Serial_functions.h / WiFi_functions.h / Izhikevich_parameters.h).

Embedding conventions:
* C `float`/`double` values are modelled as `ℚ` (exact arithmetic; the source
  literals denote the corresponding rationals).
* C `int` values are modelled as `ℤ`, C truncating casts `(int)x` as
  `ratTrunc`, C integer division as `Int.tdiv` (both round toward zero).
* Hardware reads (`ADC1.read`, `digitalRead`, the Gaussian `random()` draw)
  are inputs to the per-tick update functions; hardware writes
  (`ledcWrite`, `DAC.write`, `Serial.write`) are either dropped or, for the
  telemetry packet, returned as a byte list.
-/

namespace Spikeling

/-- Floor of a rational, as the source of `Rat.floor_def`. -/
def ratFloor (x : ℚ) : ℤ := x.num / (x.den : ℤ)

/-- C truncating cast `(int)x` of a floating value: rounds toward zero. -/
def ratTrunc (x : ℚ) : ℤ := if 0 ≤ x then ⌊x⌋ else ⌈x⌉

/-- `int16_t` wrap-around (two's complement) of an integer. -/
def wrap16 (n : ℤ) : ℤ := ((n + 32768) % 65536) - 32768

/-- Specification-side rounding: round half away from zero (symmetric
rounding, ties away from zero), as the telemetry spec describes it. -/
def roundAway (x : ℚ) : ℤ := if 0 ≤ x then ⌊x + 1/2⌋ else -⌊-x + 1/2⌋

/-- `constrain(x, lo, hi)` from the Arduino library. -/
def constrain (x lo hi : ℤ) : ℤ := if x < lo then lo else if x > hi then hi else x

/-- `mapfloat` helper from `General_settings.h`. -/
def mapfloat (x in_min in_max out_min out_max : ℚ) : ℚ :=
  (x - in_min) * (out_max - out_min) / (in_max - in_min) + out_min

/-- ADC resolution constant `bits12 = 4095`. -/
def bits12 : ℤ := 4095

/-- `pot.offset = bits12/15` (C integer division) `= 273`. -/
def potOffset : ℤ := Int.tdiv bits12 15

/-- The dead-zone/scale conditioning rule shared by the clamp, photodiode-gain
and synapse-gain potentiometer blocks: the raw sample is centered on
mid-scale (`- bits12/2`), a dead zone of `pot.offset` is cut out around zero
and the excess is divided by the unit's scaling constant. -/
def potDeadzone (raw : ℤ) (scaling : ℚ) : ℚ :=
  let pv : ℚ := (raw : ℚ) - 2047
  if pv ≥ (potOffset : ℚ) then (pv - potOffset) / scaling
  else if pv ≤ -(potOffset : ℚ) then (pv + potOffset) / scaling
  else 0

/-! ## Telemetry byte-level helpers -/

/-- Low byte of the 16-bit two's-complement representation. -/
def lo8 (n : ℤ) : ℕ := (n % 65536).toNat % 256

/-- High byte of the 16-bit two's-complement representation. -/
def hi8 (n : ℤ) : ℕ := (n % 65536).toNat / 256

/-- A 16-bit field serialized in little-endian (host) byte order. -/
def le16 (n : ℤ) : List ℕ := [lo8 n, hi8 n]

/-- Test-harness decoder: reassemble a signed 16-bit value from two bytes. -/
def decodeI16 (lo hi : ℕ) : ℤ :=
  let u : ℤ := (lo : ℤ) + 256 * (hi : ℤ)
  if u < 32768 then u else u - 65536

/-- The value fits in a signed 16-bit field. -/
def int16Range (n : ℤ) : Prop := -32768 ≤ n ∧ n ≤ 32767

instance (n : ℤ) : Decidable (int16Range n) := by unfold int16Range; infer_instance

/-! ## Data model (mirrors the structs of `General_settings.h`) -/

/-- `Timing` (only the field the command dispatcher touches). -/
structure Timing where
  step_us : ℤ


/-- `NeuronModel` dynamic state and Izhikevich parameters. -/
structure NeuronModel where
  v : ℚ
  u : ℚ
  a : ℚ
  b : ℚ
  c : ℚ
  d : ℚ
  v_rest : ℚ
  Vm_min : ℚ
  Vm_max : ℚ
  Vm_spike : ℚ
  Vm_peak : ℚ
  v_out : ℚ
  total_current : ℚ
  spike : Bool


/-- `VoltageClamp` (struct `VoltageClamp`, global `IC`). -/
structure VoltageClamp where
  value_currentIn : ℚ
  currentIn_scaling : ℚ
  current : ℚ
  pot_value : ℚ
  pot_scaling : ℚ
  current_clamp : ℚ
  enable : Bool


/-- `NoiseGenerator` (global `noise`); the `Gaussian dist` object is modelled
by its two parameters `dist_mean` / `dist_variance`. -/
structure NoiseGenerator where
  pot_value : ℤ
  pot_scaling : ℚ
  amp : ℚ
  current : ℚ
  enable : Bool
  mean : ℚ
  sigma : ℚ
  newSigma : ℚ
  var : ℚ
  dist_mean : ℚ
  dist_variance : ℚ


/-- `Photodiode` (global `PD`); the C array `values[PD_WindowSize]` is a list. -/
structure Photodiode where
  pot_value : ℤ
  pot_scaling : ℚ
  gain : ℚ
  amp : ℚ
  value : ℤ
  values : List ℤ
  counter : ℕ
  avgWindow : ℕ
  sum : ℤ
  average : ℚ
  inv_scaling : ℚ
  decay : ℚ
  ampMin : ℚ
  recovery : ℚ
  polarity : ℤ
  current : ℚ
  gain_enable : Bool
  decay_enable : Bool
  recovery_enable : Bool


/-- `Synapse` (globals `syn1`, `syn2`). -/
structure Synapse where
  gain : ℚ
  pot_value : ℤ
  pot_scaling : ℚ
  spikeState : Bool
  current : ℚ
  decay : ℚ
  Vm : ℚ
  Vm_input : ℚ
  analogOffsetLow : ℚ
  analogOffsetHigh : ℚ
  gain_enable : Bool
  decay_enable : Bool


/-- `Stimulus` (global `stim`). -/
structure Stimulus where
  strPot : ℤ
  str_digitalMap : ℚ
  str_digital : ℤ
  str_analogMap : ℚ
  str_analog : ℤ
  str_analog_min : ℤ
  freqPot : ℤ
  freq_map : ℚ
  freq : ℤ
  value_digital : ℤ
  value_analog : ℤ
  value_custom : ℤ
  current_scaling : ℚ
  light_scaling : ℚ
  counter : ℤ
  steps : ℤ
  dutyCycle : ℤ
  dutyCycle_Min : ℤ
  state : ℤ
  trigger : ℤ
  pwm : ℤ
  dac : ℤ
  strength_enable : Bool
  frequency_enable : Bool
  custom_enable : Bool
  trigger_enable : Bool
  serialTrigger_enable : Bool


/-- The shared mutable parameter set both transports write into and the tick
loop reads (the relevant global objects of `General_settings.h`). -/
structure DeviceState where
  timing : Timing
  neuron : NeuronModel
  currentModel : ℕ
  IC : VoltageClamp
  noise : NoiseGenerator
  PD : Photodiode
  syn1 : Synapse
  syn2 : Synapse
  stim : Stimulus
  Buzzer_enable : Bool
  LED_enable : Bool


/-! ## Izhikevich preset table (`Izhikevich_parameters.h`) -/

/-- `IzhikevichParams`. -/
structure IzhikevichParams where
  a : ℚ
  b : ℚ
  c : ℚ
  d : ℚ
  v_rest : ℚ


instance : Inhabited IzhikevichParams := ⟨0, 0, 0, 0, 0⟩

/-- The constexpr lookup table `izhikevich[]` (20 presets). -/
def izhikevich : List IzhikevichParams :=
  [ ⟨2/100, 20/100, -65, 6, -70⟩        -- TonicSpiking
  , ⟨2/100, 25/100, -65, 6, -64⟩        -- PhasicSpiking
  , ⟨2/100, 20/100, -50, 2, -70⟩        -- TonicBursting
  , ⟨2/100, 25/100, -55, 5/100, -64⟩    -- PhasicBursting
  , ⟨2/100, 20/100, -55, 4, -70⟩        -- MixedMode
  , ⟨1/100, 20/100, -65, 8, -70⟩        -- SpikeFrequencyAdaptation
  , ⟨2/100, -10/100, -55, 6, -60⟩       -- Class1
  , ⟨20/100, 26/100, -65, 0, -64⟩       -- Class2
  , ⟨2/100, 20/100, -65, 6, -70⟩        -- SpikeLatency
  , ⟨5/100, 26/100, -60, 0, -62⟩        -- SubThresholdOscillations
  , ⟨10/100, 26/100, -60, -1, -62⟩      -- Resonator
  , ⟨2/100, -10/100, -55, 6, -60⟩       -- Integrator
  , ⟨3/100, 25/100, -60, 4, -64⟩        -- ReboundSpike
  , ⟨3/100, 25/100, -52, 0, -64⟩        -- ReboundBurst
  , ⟨3/100, 25/100, -60, 4, -64⟩        -- ThresholdVariability
  , ⟨10/100, 26/100, -60, 0, -61⟩       -- Bistability
  , ⟨1, 20/100, -60, -21, -70⟩          -- DAP
  , ⟨2/100, 1, -55, 4, -65⟩             -- Accommodation
  , ⟨2/100, 1, -60, 8, -319/5⟩          -- InhibitionInducedSpiking
  , ⟨26/1000, -1, -45, -2, -319/5⟩ ]    -- InhibitionInducedBursting

/-- `IzhikevichModelCount` (the `Count` sentinel; the source `static_assert`s
that it equals the table length). -/
def IzhikevichModelCount : ℕ := izhikevich.length

/-- `getIzhikevichParams(model)`. -/
def getIzhikevichParams (model : ℕ) : IzhikevichParams :=
  izhikevich.getD model default

/-- `clampToModel(index)`: any out-of-range index is mapped to preset 0. -/
def clampToModel (index : ℕ) : ℕ :=
  if index ≥ IzhikevichModelCount then 0 else index

/-! ## Initial state (the inline initializers of `General_settings.h`) -/

def timing_init : Timing := { step_us := 3000 }

def neuron_init : NeuronModel :=
  { v := -70, u := 0, a := 2/100, b := 20/100, c := -65, d := 6, v_rest := -70
  , Vm_min := -110, Vm_max := 100, Vm_spike := -30, Vm_peak := 30
  , v_out := 0, total_current := 0, spike := false }

def IC_init : VoltageClamp :=
  { value_currentIn := 0, currentIn_scaling := 1/10, current := 0
  , pot_value := 0, pot_scaling := 4095/100, current_clamp := 0, enable := true }

def noise_init : NoiseGenerator :=
  { pot_value := 0, pot_scaling := 4095/25, amp := 0, current := 0
  , enable := true, mean := 0, sigma := 0, newSigma := 0, var := 0
  , dist_mean := 0, dist_variance := 0 }

def PD_init : Photodiode :=
  { pot_value := 0, pot_scaling := 4095/50, gain := 0, amp := 1
  , value := 0, values := List.replicate 10 0, counter := 0, avgWindow := 10
  , sum := 0, average := 0, inv_scaling := 20/9, decay := 1/1000
  , ampMin := 0, recovery := 25/1000, polarity := 1, current := 0
  , gain_enable := true, decay_enable := true, recovery_enable := true }

def syn1_init : Synapse :=
  { gain := 0, pot_value := 0, pot_scaling := 4095/50, spikeState := false
  , current := 0, decay := 995/1000, Vm := 0, Vm_input := 0
  , analogOffsetLow := -10, analogOffsetHigh := -400
  , gain_enable := true, decay_enable := true }

def syn2_init : Synapse :=
  { syn1_init with decay := 990/1000 }

def stim_init : Stimulus :=
  { strPot := 0, str_digitalMap := 100/2047, str_digital := 0
  , str_analogMap := 200/2047, str_analog := 0, str_analog_min := 5
  , freqPot := 0, freq_map := 200/4095, freq := 0
  , value_digital := 0, value_analog := 0, value_custom := 0
  , current_scaling := 9/10, light_scaling := 512/100
  , counter := 0, steps := 0, dutyCycle := 500, dutyCycle_Min := 10
  , state := 0, trigger := 0, pwm := 0, dac := 0
  , strength_enable := true, frequency_enable := true, custom_enable := true
  , trigger_enable := false, serialTrigger_enable := false }

def initState : DeviceState :=
  { timing := timing_init, neuron := neuron_init, currentModel := 0
  , IC := IC_init, noise := noise_init, PD := PD_init, syn1 := syn1_init, syn2 := syn2_init
  , stim := stim_init, Buzzer_enable := true, LED_enable := true }

/-! ## Per-tick conditioning updates (`Core_functions.h`) -/

/-- `update_InputCurrent`: when the clamp is autonomous (`IC.enable`), derive
`current_clamp` from the potentiometer sample by the dead-zone/scale rule;
when overridden by a command, return immediately. -/
def update_InputCurrent (ic : VoltageClamp) (rawPot : ℤ) : VoltageClamp :=
  if !ic.enable then ic
  else
    { ic with pot_value := (rawPot : ℚ) - 2047
            , current_clamp := potDeadzone rawPot ic.pot_scaling }

/-- `update_Noise`: the Gaussian draw is an oracle `draw mean variance`.
The source guard is modelled verbatim: `fabsf(newSigma != sigma) > 1e-3f`
applies `fabsf` to the boolean comparison converted to a float (0 or 1). -/
def update_Noise (ng : NoiseGenerator) (rawPot : ℤ) (draw : ℚ → ℚ → ℚ) :
    NoiseGenerator :=
  if !ng.enable then ng
  else
    let ng1 := { ng with pot_value := rawPot }
    if rawPot ≤ potOffset then { ng1 with current := 0 }
    else
      let amp := ((rawPot : ℚ) - (potOffset : ℚ)) / ng1.pot_scaling
      let newSigma := (1/2) * amp
      let ng2 := { ng1 with amp := amp, newSigma := newSigma }
      let ng3 :=
        if |(if newSigma ≠ ng2.sigma then (1 : ℚ) else 0)| > 1/1000 then
          { ng2 with sigma := newSigma
                   , var := newSigma * newSigma
                   , dist_variance := newSigma * newSigma
                   , dist_mean := ng2.mean }
        else ng2
      { ng3 with current := draw ng3.dist_mean ng3.dist_variance }

/-- Ring-buffer sum after storing the new sample (`PD.sum -= old; += new`). -/
def PD_newSum (pd : Photodiode) (rawPD : ℤ) : ℤ :=
  pd.sum - pd.values.getD pd.counter 0 + rawPD

/-- Ring-buffer contents after storing the new sample. -/
def PD_newValues (pd : Photodiode) (rawPD : ℤ) : List ℤ :=
  pd.values.set pd.counter rawPD

/-- Ring-buffer write index after the increment-and-wrap. -/
def PD_newCounter (pd : Photodiode) : ℕ :=
  if pd.counter + 1 ≥ pd.avgWindow then 0 else pd.counter + 1

/-- `PD.average = PD.sum / PD.avgWindow`: both operands are C `int`s, so this
is an integer division (truncated toward zero) assigned to a float. -/
def PD_newAverage (pd : Photodiode) (rawPD : ℤ) : ℚ :=
  ((Int.tdiv (PD_newSum pd rawPD) (pd.avgWindow : ℤ) : ℤ) : ℚ)

/-- Photodiode gain for this tick: from the gain pot when autonomous. -/
def PD_newGain (pd : Photodiode) (rawPot : ℤ) : ℚ :=
  if pd.gain_enable then potDeadzone rawPot pd.pot_scaling else pd.gain

/-- `PD.polarity = (PD.gain >= 0.0f) ? 1 : -1` (on this tick's gain). -/
def PD_polarity (pd : Photodiode) (rawPot : ℤ) : ℤ :=
  if PD_newGain pd rawPot ≥ 0 then 1 else -1

/-- `PD.current = (PD.average * PD.gain * PD.inv_scaling) * PD.amp`. -/
def PD_newCurrent (pd : Photodiode) (rawPD rawPot : ℤ) : ℚ :=
  (PD_newAverage pd rawPD * PD_newGain pd rawPot * pd.inv_scaling) * pd.amp

/-- Effective decay for this tick: the autonomous default `0.001` unless
manually overridden (`decay_enable == false`). -/
def PD_effDecay (pd : Photodiode) : ℚ :=
  if pd.decay_enable then 1/1000 else pd.decay

/-- Effective recovery for this tick: the autonomous default `0.025` unless
manually overridden (`recovery_enable == false`). -/
def PD_effRecovery (pd : Photodiode) : ℚ :=
  if pd.recovery_enable then 25/1000 else pd.recovery

/-- Adaptive-amplitude decay step with its floor at `ampMin`. -/
def PD_ampAfterDecay (pd : Photodiode) (rawPD rawPot : ℤ) : ℚ :=
  if pd.amp > pd.ampMin then
    let a := pd.amp
      - (PD_polarity pd rawPot : ℚ) * PD_effDecay pd * PD_newCurrent pd rawPD rawPot
    if a < pd.ampMin then pd.ampMin else a
  else pd.amp

/-- Adaptive amplitude after the decay step and the linear recovery step. -/
def PD_newAmp (pd : Photodiode) (rawPD rawPot : ℤ) : ℚ :=
  if PD_ampAfterDecay pd rawPD rawPot < 1 then
    PD_ampAfterDecay pd rawPD rawPot + PD_effRecovery pd
  else PD_ampAfterDecay pd rawPD rawPot

/-- `update_Photodiode`, assembled from the per-field steps above in source
order (ring buffer / average, gain pot block, polarity, current, decay
default, amplitude decay, recovery default, amplitude recovery). -/
def update_Photodiode (pd : Photodiode) (rawPD rawPot : ℤ) : Photodiode :=
  { pd with
    value := rawPD
  , sum := PD_newSum pd rawPD
  , values := PD_newValues pd rawPD
  , counter := PD_newCounter pd
  , average := PD_newAverage pd rawPD
  , pot_value := if pd.gain_enable then rawPot - 2047 else pd.pot_value
  , gain := PD_newGain pd rawPot
  , polarity := PD_polarity pd rawPot
  , current := PD_newCurrent pd rawPD rawPot
  , decay := PD_effDecay pd
  , recovery := PD_effRecovery pd
  , amp := PD_newAmp pd rawPD rawPot }

/-- `update_Synapse(syn, defaultDecay)`: inputs are the digital spike edge,
the gain-pot sample and the analog membrane-voltage sample; `VmMin`, `VmMax`
and `axonOffset` stand for the globals `neuron.Vm_min`, `neuron.Vm_max`,
`axon.offset` the source reads. -/
def update_Synapse (syn : Synapse) (defaultDecay : ℚ) (dIn : Bool)
    (rawPot rawVm : ℤ) (VmMin VmMax axonOffset : ℚ) : Synapse :=
  let s1 := { syn with spikeState := dIn }
  let s2 :=
    if s1.gain_enable then
      { s1 with pot_value := rawPot - 2047
              , gain := potDeadzone rawPot s1.pot_scaling }
    else s1
  let s3 := if s2.spikeState then { s2 with current := s2.current + s2.gain } else s2
  let s4 := if s3.decay_enable then { s3 with decay := defaultDecay } else s3
  let s5 := { s4 with current := s4.current * s4.decay }
  { s5 with Vm_input := (rawVm : ℚ)
          , Vm := mapfloat (rawVm : ℚ) s5.analogOffsetLow
              ((bits12 : ℚ) - s5.analogOffsetHigh) VmMin VmMax + axonOffset }

/-! ## Stimulus generator (`update_StimulusOutput`), split into the source's
successive blocks -/

/-- Strength/frequency potentiometer blocks (each gated on its autonomy flag
and on custom mode being off). -/
def stimPotPhase (st : Stimulus) (strPotIn freqPotIn : ℤ) : Stimulus :=
  let st1 :=
    if st.strength_enable && st.custom_enable then
      { st with strPot := strPotIn
              , str_digital := wrap16 (ratTrunc (((strPotIn : ℚ) - 2047) * st.str_digitalMap))
              , str_analog := wrap16 (ratTrunc ((strPotIn : ℚ) * st.str_analogMap - 100)) }
    else st
  if st1.frequency_enable && st1.custom_enable then
    { st1 with freqPot := freqPotIn
             , freq := wrap16 (ratTrunc (100 - (freqPotIn : ℚ) * st1.freq_map)) }
  else st1

/-- Auto-mode output block: output magnitudes, on/off phase from the
half-duty-cycle comparison, then the counter increment. -/
def stimOutputPhase (st : Stimulus) : Stimulus :=
  let st1 := { st with
    value_digital := if st.str_digital ≥ 0 then ratTrunc ((st.str_digital : ℚ) * st.light_scaling) else 0 }
  let st2 := { st1 with
    value_analog := ratTrunc (((st1.str_analog.natAbs : ℤ) : ℚ) * st1.current_scaling) }
  let st3 :=
    if st2.counter < Int.tdiv st2.steps 2 then
      { st2 with pwm := constrain st2.value_digital 0 1023
               , dac := st2.value_analog
               , state := st2.str_analog }
    else { st2 with pwm := 0, dac := 0, state := 0 }
  { st3 with counter := st3.counter + 1 }

/-- Auto-mode trigger block: emit `1` exactly when the flag is pending, and
consume the flag. -/
def stimTriggerPhase (st : Stimulus) : Stimulus :=
  let st1 := if !st.trigger_enable then { st with trigger := 0 } else st
  if st1.trigger_enable then { st1 with trigger := 1, trigger_enable := false } else st1

/-- Auto-mode wrap block: when the counter reaches `steps`, restart the duty
cycle, arm the trigger flag and recompute `steps` from `freq`. -/
def stimWrapPhase (st : Stimulus) : Stimulus :=
  if st.counter ≥ st.steps then
    { st with counter := 0
            , trigger_enable := true
            , steps := ratTrunc ((st.dutyCycle : ℚ)
                + ((st.freq * st.dutyCycle : ℤ) : ℚ) / 100 + (st.dutyCycle_Min : ℚ) + 1/2) }
  else st

/-- Custom-mode block: trigger from the serial flag, outputs directly from
`value_custom`, `state := value_custom`. -/
def stimCustomPhase (st : Stimulus) : Stimulus :=
  let st1 := { st with trigger := 0 }
  let st2 :=
    if st1.serialTrigger_enable then { st1 with trigger := 1, serialTrigger_enable := false }
    else st1
  let st3 := { st2 with
    value_digital := if st2.value_custom > 0 then ratTrunc ((st2.value_custom : ℚ) * st2.light_scaling) else 0 }
  let st4 := { st3 with
    value_analog := ratTrunc (((st3.value_custom.natAbs : ℤ) : ℚ) * st3.current_scaling) }
  { st4 with state := st4.value_custom }

/-- `update_StimulusOutput`: potentiometer blocks, then the auto branch
(output, counter, trigger, wrap) or the custom branch. -/
def update_StimulusOutput (st : Stimulus) (strPotIn freqPotIn : ℤ) : Stimulus :=
  let st1 := stimPotPhase st strPotIn freqPotIn
  if st1.custom_enable then
    stimWrapPhase (stimTriggerPhase (stimOutputPhase st1))
  else stimCustomPhase st1

/-! ## Telemetry encoder (`send_SamplePacket`) -/

def V_SCALE : ℚ := 100

def I_SCALE : ℚ := 100

def SYN_V_SCALE : ℚ := 1

/-- `q_round`: quantize a scaled float with symmetric rounding, exactly as the
source writes it (`(int16_t)(x + 0.5f)` for nonnegative `x`, else
`(int16_t)(x - 0.5f)`; the truncating cast rounds toward zero). -/
def q_round (x : ℚ) : ℤ :=
  if x ≥ 0 then ratTrunc (x + 1/2) else ratTrunc (x - 1/2)

/-- `send_SamplePacket`: the 2-byte sync header `0xAA 0x55` followed by the
eight little-endian signed 16-bit fields of `SamplePacket`, in declaration
order. The plain-cast fields (`stim_state`, `trigger_q`) pass through the
`int16_t` conversion (`wrap16`). -/
def send_SamplePacket (s : DeviceState) : List ℕ :=
  [170, 85]
  ++ le16 (q_round (s.neuron.v_out * V_SCALE))
  ++ le16 (wrap16 s.stim.state)
  ++ le16 (q_round (s.neuron.total_current * I_SCALE))
  ++ le16 (q_round (s.syn1.Vm * SYN_V_SCALE))
  ++ le16 (q_round (s.syn1.current * I_SCALE))
  ++ le16 (q_round (s.syn2.Vm * SYN_V_SCALE))
  ++ le16 (q_round (s.syn2.current * I_SCALE))
  ++ le16 (wrap16 s.stim.trigger)

/-! ## Command vocabulary and the two dispatchers -/

/-- The command vocabulary registered in `SerialFunctions()` and routed by
`dispatchToken`. -/
inductive Cmd where
  | DT | NEU
  | FR1 | FR0 | ST1 | ST0 | SC1 | SC0 | TR
  | PG1 | PG0 | PD1 | PD0 | PR1 | PR0
  | IC1 | IC0 | NO1 | NO0
  | SG11 | SG10 | SD11 | SD10 | SG21 | SG20 | SD21 | SD20
  | BZ1 | BZ0 | LED1 | LED0 | CON
  deriving DecidableEq

/-- `setFloatParam(enableFlag, param, scale)`: clears the autonomy flag
first, then stores `arg * scale` only if an argument parsed. Returns the new
(flag, parameter) pair. -/
def setFloatParam (arg : Option ℚ) (param : ℚ) (scale : ℚ) : Bool × ℚ :=
  (false, match arg with
          | none => param
          | some v => v * scale)

/-- `setIntParam(enableFlag, param)`: same shape for integer parameters. -/
def setIntParam (arg : Option ℚ) (param : ℤ) : Bool × ℤ :=
  (false, match arg with
          | none => param
          | some v => ratTrunc v)

/-- `applyFloat` (WiFi helper): always stores, always clears the flag. -/
def applyFloat (v : ℚ) (scale : ℚ) : Bool × ℚ := (false, v * scale)

/-- `applyInt` (WiFi helper). -/
def applyInt (v : ℚ) : Bool × ℤ := (false, ratTrunc v)

/-- `SetNeuronModel(model)`: copy the preset's parameters into the neuron
state, reset `v` to the resting potential and `u = b * v`. -/
def SetNeuronModel (model : ℕ) (s : DeviceState) : DeviceState :=
  let p := getIzhikevichParams model
  { s with currentModel := model
         , neuron := { s.neuron with
             a := p.a, b := p.b, c := p.c, d := p.d, v_rest := p.v_rest
           , v := p.v_rest, u := p.b * p.v_rest } }

/-- The serial transport's handler table (`Serial_functions.h`): the effect of
one received command with its (possibly missing) numeric argument.  `atoi` /
`atof` of a present token are modelled by the rational argument (`ratTrunc`
for the integer readers); the `(uint32_t)` cast in `SetRefreshRate` is the
modular reduction. -/
def serialApply (c : Cmd) (arg : Option ℚ) (s : DeviceState) : DeviceState :=
  match c with
  | .DT =>
      match arg with
      | some v => { s with timing := { step_us := ratTrunc v % 4294967296 } }
      | none => s
  | .NEU =>
      match arg with
      | some v => SetNeuronModel (clampToModel (ratTrunc v).toNat) s
      | none => s
  | .FR1 =>
      let r := setIntParam arg s.stim.freq
      { s with stim := { s.stim with frequency_enable := r.1, freq := r.2 } }
  | .FR0 => { s with stim := { s.stim with frequency_enable := true } }
  | .ST1 =>
      match arg with
      | some v =>
          { s with stim := { s.stim with strength_enable := false, str_digital := ratTrunc v, str_analog := ratTrunc v } }
      | none => { s with stim := { s.stim with strength_enable := false } }
  | .ST0 => { s with stim := { s.stim with strength_enable := true } }
  | .SC1 =>
      let r := setIntParam arg s.stim.value_custom
      { s with stim := { s.stim with custom_enable := r.1, value_custom := r.2 } }
  | .SC0 => { s with stim := { s.stim with custom_enable := true } }
  | .TR => { s with stim := { s.stim with serialTrigger_enable := true } }
  | .PG1 =>
      let r := setFloatParam arg s.PD.gain (1/10)
      { s with PD := { s.PD with gain_enable := r.1, gain := r.2 } }
  | .PG0 => { s with PD := { s.PD with gain_enable := true } }
  | .PD1 =>
      let r := setFloatParam arg s.PD.decay 1
      { s with PD := { s.PD with decay_enable := r.1, decay := r.2 } }
  | .PD0 => { s with PD := { s.PD with decay_enable := true } }
  | .PR1 =>
      let r := setFloatParam arg s.PD.recovery 1
      { s with PD := { s.PD with recovery_enable := r.1, recovery := r.2 } }
  | .PR0 => { s with PD := { s.PD with recovery_enable := true } }
  | .IC1 =>
      let r := setFloatParam arg s.IC.current_clamp 1
      { s with IC := { s.IC with enable := r.1, current_clamp := r.2 } }
  | .IC0 => { s with IC := { s.IC with enable := true } }
  | .NO1 =>
      let r := setFloatParam arg s.noise.current 1
      { s with noise := { s.noise with enable := r.1, current := r.2 } }
  | .NO0 => { s with noise := { s.noise with enable := true } }
  | .SG11 =>
      let r := setFloatParam arg s.syn1.gain (25/100)
      { s with syn1 := { s.syn1 with gain_enable := r.1, gain := r.2 } }
  | .SG10 => { s with syn1 := { s.syn1 with gain_enable := true } }
  | .SD11 =>
      let r := setFloatParam arg s.syn1.decay (1/1000)
      { s with syn1 := { s.syn1 with decay_enable := r.1, decay := r.2 } }
  | .SD10 => { s with syn1 := { s.syn1 with decay_enable := true } }
  | .SG21 =>
      let r := setFloatParam arg s.syn2.gain (25/100)
      { s with syn2 := { s.syn2 with gain_enable := r.1, gain := r.2 } }
  | .SG20 => { s with syn2 := { s.syn2 with gain_enable := true } }
  | .SD21 =>
      let r := setFloatParam arg s.syn2.decay (1/1000)
      { s with syn2 := { s.syn2 with decay_enable := r.1, decay := r.2 } }
  | .SD20 => { s with syn2 := { s.syn2 with decay_enable := true } }
  | .BZ1 => { s with Buzzer_enable := true }
  | .BZ0 => { s with Buzzer_enable := false }
  | .LED1 => { s with LED_enable := true }
  | .LED0 => { s with LED_enable := false }
  | .CON => s

/-- The network transport's router `dispatchToken(cmd, hasVal, v)`
(`WiFi_functions.h`): every value-carrying command is gated on `hasVal`, and
`DT` additionally clamps the period into `[1000, 1000000]` µs. -/
def dispatchToken (c : Cmd) (hasVal : Bool) (v : ℚ) (s : DeviceState) : DeviceState :=
  match c with
  | .DT =>
      if hasVal then
        let val0 := ratTrunc v
        let val1 := if val0 < 1000 then 1000 else val0
        let val2 := if val1 > 1000000 then 1000000 else val1
        { s with timing := { step_us := val2 } }
      else s
  | .NEU =>
      if hasVal then SetNeuronModel (clampToModel (ratTrunc v).toNat) s else s
  | .FR1 =>
      if hasVal then
        let r := applyInt v
        { s with stim := { s.stim with frequency_enable := r.1, freq := r.2 } }
      else s
  | .FR0 => { s with stim := { s.stim with frequency_enable := true } }
  | .ST1 =>
      if hasVal then
        { s with stim := { s.stim with strength_enable := false, str_digital := ratTrunc v, str_analog := ratTrunc v } }
      else s
  | .ST0 => { s with stim := { s.stim with strength_enable := true } }
  | .SC1 =>
      if hasVal then
        let r := applyInt v
        { s with stim := { s.stim with custom_enable := r.1, value_custom := r.2 } }
      else s
  | .SC0 => { s with stim := { s.stim with custom_enable := true } }
  | .TR => { s with stim := { s.stim with serialTrigger_enable := true } }
  | .PG1 =>
      if hasVal then
        let r := applyFloat v (1/10)
        { s with PD := { s.PD with gain_enable := r.1, gain := r.2 } }
      else s
  | .PG0 => { s with PD := { s.PD with gain_enable := true } }
  | .PD1 =>
      if hasVal then
        let r := applyFloat v 1
        { s with PD := { s.PD with decay_enable := r.1, decay := r.2 } }
      else s
  | .PD0 => { s with PD := { s.PD with decay_enable := true } }
  | .PR1 =>
      if hasVal then
        let r := applyFloat v 1
        { s with PD := { s.PD with recovery_enable := r.1, recovery := r.2 } }
      else s
  | .PR0 => { s with PD := { s.PD with recovery_enable := true } }
  | .IC1 =>
      if hasVal then
        let r := applyFloat v 1
        { s with IC := { s.IC with enable := r.1, current_clamp := r.2 } }
      else s
  | .IC0 => { s with IC := { s.IC with enable := true } }
  | .NO1 =>
      if hasVal then
        let r := applyFloat v 1
        { s with noise := { s.noise with enable := r.1, current := r.2 } }
      else s
  | .NO0 => { s with noise := { s.noise with enable := true } }
  | .SG11 =>
      if hasVal then
        let r := applyFloat v (25/100)
        { s with syn1 := { s.syn1 with gain_enable := r.1, gain := r.2 } }
      else s
  | .SG10 => { s with syn1 := { s.syn1 with gain_enable := true } }
  | .SD11 =>
      if hasVal then
        let r := applyFloat v (1/1000)
        { s with syn1 := { s.syn1 with decay_enable := r.1, decay := r.2 } }
      else s
  | .SD10 => { s with syn1 := { s.syn1 with decay_enable := true } }
  | .SG21 =>
      if hasVal then
        let r := applyFloat v (25/100)
        { s with syn2 := { s.syn2 with gain_enable := r.1, gain := r.2 } }
      else s
  | .SG20 => { s with syn2 := { s.syn2 with gain_enable := true } }
  | .SD21 =>
      if hasVal then
        let r := applyFloat v (1/1000)
        { s with syn2 := { s.syn2 with decay_enable := r.1, decay := r.2 } }
      else s
  | .SD20 => { s with syn2 := { s.syn2 with decay_enable := true } }
  | .BZ1 => { s with Buzzer_enable := true }
  | .BZ0 => { s with Buzzer_enable := false }
  | .LED1 => { s with LED_enable := true }
  | .LED0 => { s with LED_enable := false }
  | .CON => s


/-- Iterate `update_StimulusOutput` over a list of per-tick pot samples. -/
def stimRun (st : Stimulus) : List (ℤ × ℤ) → Stimulus
  | [] => st
  | i :: is => stimRun (update_StimulusOutput st i.1 i.2) is

/-- The trigger values emitted over a run of ticks. -/
def stimTriggerTrace (st : Stimulus) : List (ℤ × ℤ) → List ℤ
  | [] => []
  | i :: is =>
      (update_StimulusOutput st i.1 i.2).trigger
        :: stimTriggerTrace (update_StimulusOutput st i.1 i.2) is


/-- A synapse whose gain and decay have been manually commanded (autonomy
off on both) starting from zero accumulated current; remaining fields as
`syn1`'s initial state. -/
def synManual (g d : ℚ) : Synapse :=
  { syn1_init with gain_enable := false, decay_enable := false
                 , gain := g, decay := d, current := 0 }

/-- Iterate decay-only synapse ticks (no digital edge) over per-tick inputs. -/
def synRunNoEdge (dd mn mx ao : ℚ) (s : Synapse) : List (ℤ × ℤ) → Synapse
  | [] => s
  | i :: is => synRunNoEdge dd mn mx ao (update_Synapse s dd false i.1 i.2 mn mx ao) is


/-- Test-harness decoder for the 16-byte payload: consume byte pairs. -/
def decodePayload : List ℕ → List ℤ
  | lo :: hi :: rest => decodeI16 lo hi :: decodePayload rest
  | _ => []


/-- The ring buffer read oldest-first: `values` rotated to the write index. -/
def PD_window (pd : Photodiode) : List ℤ := pd.values.rotate pd.counter

/-- The photodiode ring-buffer invariant: the buffer has `avgWindow` slots,
the write index is in `[0, avgWindow)` and `sum` caches the buffer sum. -/
def PD_Inv (pd : Photodiode) : Prop :=
  pd.values.length = pd.avgWindow ∧ pd.counter < pd.avgWindow ∧ pd.sum = pd.values.sum

/-! ## Helper lemmas -/

theorem update_InputCurrent_frozen (ic : VoltageClamp) (h : ic.enable = false)
    (raw : ℤ) : update_InputCurrent ic raw = ic := by
  simp [update_InputCurrent, h]

theorem foldl_update_InputCurrent_frozen (raws : List ℤ) (ic : VoltageClamp)
    (h : ic.enable = false) : raws.foldl update_InputCurrent ic = ic := by
  induction raws with
  | nil => rfl
  | cons r rs ih => simp [List.foldl_cons, update_InputCurrent_frozen ic h r, ih]


theorem stimPotPhase_proj (st : Stimulus) (a b : ℤ) :
    (stimPotPhase st a b).counter = st.counter ∧
    (stimPotPhase st a b).steps = st.steps ∧
    (stimPotPhase st a b).trigger = st.trigger ∧
    (stimPotPhase st a b).trigger_enable = st.trigger_enable ∧
    (stimPotPhase st a b).custom_enable = st.custom_enable ∧
    (stimPotPhase st a b).serialTrigger_enable = st.serialTrigger_enable ∧
    (stimPotPhase st a b).dutyCycle = st.dutyCycle ∧
    (stimPotPhase st a b).dutyCycle_Min = st.dutyCycle_Min := by
  simp only [stimPotPhase]
  split <;> split <;> simp

theorem stimPotPhase_freq_frozen (st : Stimulus) (a b : ℤ)
    (h : st.frequency_enable = false) :
    (stimPotPhase st a b).freq = st.freq ∧
    (stimPotPhase st a b).frequency_enable = false ∧
    (stimPotPhase st a b).custom_enable = st.custom_enable := by
  simp only [stimPotPhase]
  split <;> split <;> simp_all

theorem stimPotPhase_str_frozen (st : Stimulus) (a b : ℤ)
    (h : st.strength_enable = false) :
    (stimPotPhase st a b).str_digital = st.str_digital ∧
    (stimPotPhase st a b).str_analog = st.str_analog ∧
    (stimPotPhase st a b).custom_enable = st.custom_enable := by
  simp only [stimPotPhase]
  split <;> split <;> simp_all

theorem stimOutputPhase_proj (st : Stimulus) :
    (stimOutputPhase st).freq = st.freq ∧ (stimOutputPhase st).str_digital = st.str_digital ∧
    (stimOutputPhase st).str_analog = st.str_analog ∧
    (stimOutputPhase st).counter = st.counter + 1 ∧
    (stimOutputPhase st).steps = st.steps ∧ (stimOutputPhase st).trigger = st.trigger ∧
    (stimOutputPhase st).trigger_enable = st.trigger_enable ∧
    (stimOutputPhase st).custom_enable = st.custom_enable ∧
    (stimOutputPhase st).dutyCycle = st.dutyCycle ∧
    (stimOutputPhase st).dutyCycle_Min = st.dutyCycle_Min := by
  simp only [stimOutputPhase]
  split <;> simp

theorem stimTriggerPhase_proj (st : Stimulus) :
    (stimTriggerPhase st).trigger = (if st.trigger_enable then 1 else 0) ∧
    (stimTriggerPhase st).trigger_enable = false ∧
    (stimTriggerPhase st).counter = st.counter ∧
    (stimTriggerPhase st).steps = st.steps ∧
    (stimTriggerPhase st).freq = st.freq ∧
    (stimTriggerPhase st).str_digital = st.str_digital ∧
    (stimTriggerPhase st).str_analog = st.str_analog ∧
    (stimTriggerPhase st).custom_enable = st.custom_enable := by
  simp only [stimTriggerPhase]
  by_cases h : st.trigger_enable <;> simp [h]

theorem stimWrapPhase_proj (st : Stimulus) :
    (stimWrapPhase st).counter = (if st.counter ≥ st.steps then 0 else st.counter) ∧
    (stimWrapPhase st).trigger_enable = (if st.counter ≥ st.steps then true else st.trigger_enable) ∧
    (stimWrapPhase st).trigger = st.trigger ∧
    (stimWrapPhase st).custom_enable = st.custom_enable ∧
    (stimWrapPhase st).freq = st.freq ∧
    (stimWrapPhase st).str_digital = st.str_digital ∧
    (stimWrapPhase st).str_analog = st.str_analog ∧
    (st.counter < st.steps → (stimWrapPhase st).steps = st.steps) := by
  simp only [stimWrapPhase]
  split <;> simp_all

theorem stimCustomPhase_proj (st : Stimulus) :
    (stimCustomPhase st).freq = st.freq ∧
    (stimCustomPhase st).str_digital = st.str_digital ∧
    (stimCustomPhase st).str_analog = st.str_analog ∧
    (stimCustomPhase st).counter = st.counter ∧
    (stimCustomPhase st).steps = st.steps ∧
    (stimCustomPhase st).trigger_enable = st.trigger_enable ∧
    (stimCustomPhase st).custom_enable = st.custom_enable := by
  simp only [stimCustomPhase]
  split <;> simp

/-- One auto-mode tick, characterized on the duty-cycle/trigger components. -/
theorem stepAuto_char (st : Stimulus) (a b : ℤ) (hc : st.custom_enable = true) :
    (update_StimulusOutput st a b).trigger = (if st.trigger_enable then 1 else 0) ∧
    (update_StimulusOutput st a b).counter
      = (if st.steps ≤ st.counter + 1 then 0 else st.counter + 1) ∧
    (update_StimulusOutput st a b).trigger_enable
      = (if st.steps ≤ st.counter + 1 then true else false) ∧
    (update_StimulusOutput st a b).custom_enable = true ∧
    (st.counter + 1 < st.steps → (update_StimulusOutput st a b).steps = st.steps) := by
  have hp := stimPotPhase_proj st a b
  unfold update_StimulusOutput
  rw [if_pos (by rw [hp.2.2.2.2.1, hc])]
  have ho := stimOutputPhase_proj (stimPotPhase st a b)
  have htr := stimTriggerPhase_proj (stimOutputPhase (stimPotPhase st a b))
  have hw := stimWrapPhase_proj (stimTriggerPhase (stimOutputPhase (stimPotPhase st a b)))
  have hcnt : (stimTriggerPhase (stimOutputPhase (stimPotPhase st a b))).counter
      = st.counter + 1 := by rw [htr.2.2.1, ho.2.2.2.1, hp.1]
  have hstp : (stimTriggerPhase (stimOutputPhase (stimPotPhase st a b))).steps
      = st.steps := by rw [htr.2.2.2.1, ho.2.2.2.2.1, hp.2.1]
  refine ⟨?_, ?_, ?_, ?_, ?_⟩
  · rw [hw.2.2.1, htr.1, ho.2.2.2.2.2.2.1, hp.2.2.2.1]
  · rw [hw.1, hcnt, hstp]
  · rw [hw.2.1, hcnt, hstp, htr.2.1]
  · rw [hw.2.2.2.1, htr.2.2.2.2.2.2.2, ho.2.2.2.2.2.2.2.1, hp.2.2.2.2.1, hc]
  · intro h
    rw [hw.2.2.2.2.2.2.2 (by omega : (stimTriggerPhase (stimOutputPhase (stimPotPhase st a b))).counter < _)]
    exact hstp

/-! ## C1: manual override persists across ticks -/

/-- C1: once a set command has disabled a conditioning channel's autonomy
flag, the channel's per-tick update leaves the commanded parameter unchanged
regardless of the raw channel samples, until the paired clear command
re-enables autonomy.  Conjuncts: (1) after `IC1 v`, any number of
`update_InputCurrent` ticks leaves `current_clamp = v` with autonomy still
off; (2) `IC0` re-enables autonomy; (3) a noise generator with `enable =
false` is left entirely unchanged by `update_Noise`; (4-6) `update_Photodiode`
preserves a manually set gain/decay/recovery; (7-8) `update_Synapse`
preserves a manually set gain/decay; (9-10) `update_StimulusOutput` preserves
a manually set frequency and strength. -/
theorem claim_C1_manual_override_persists :
    (∀ (s : DeviceState) (v : ℚ) (raws : List ℤ),
        (raws.foldl update_InputCurrent (serialApply Cmd.IC1 (some v) s).IC).current_clamp = v
      ∧ (raws.foldl update_InputCurrent (serialApply Cmd.IC1 (some v) s).IC).enable = false)
  ∧ (∀ s : DeviceState, (serialApply Cmd.IC0 none s).IC.enable = true)
  ∧ (∀ (ng : NoiseGenerator) (raw : ℤ) (draw : ℚ → ℚ → ℚ),
        update_Noise { ng with enable := false } raw draw = { ng with enable := false })
  ∧ (∀ (pd : Photodiode) (r p : ℤ),
        (update_Photodiode { pd with gain_enable := false } r p).gain = pd.gain)
  ∧ (∀ (pd : Photodiode) (r p : ℤ),
        (update_Photodiode { pd with decay_enable := false } r p).decay = pd.decay)
  ∧ (∀ (pd : Photodiode) (r p : ℤ),
        (update_Photodiode { pd with recovery_enable := false } r p).recovery = pd.recovery)
  ∧ (∀ (syn : Synapse) (dd : ℚ) (dIn : Bool) (rp rv : ℤ) (mn mx ao : ℚ),
        (update_Synapse { syn with gain_enable := false } dd dIn rp rv mn mx ao).gain = syn.gain)
  ∧ (∀ (syn : Synapse) (dd : ℚ) (dIn : Bool) (rp rv : ℤ) (mn mx ao : ℚ),
        (update_Synapse { syn with decay_enable := false } dd dIn rp rv mn mx ao).decay = syn.decay)
  ∧ (∀ (st : Stimulus) (a b : ℤ),
        (update_StimulusOutput { st with frequency_enable := false } a b).freq = st.freq)
  ∧ (∀ (st : Stimulus) (a b : ℤ),
        (update_StimulusOutput { st with strength_enable := false } a b).str_digital = st.str_digital
      ∧ (update_StimulusOutput { st with strength_enable := false } a b).str_analog = st.str_analog) := by
  refine ⟨?_, ?_, ?_, ?_, ?_, ?_, ?_, ?_, ?_, ?_⟩
  · intro s v raws
    rw [foldl_update_InputCurrent_frozen raws _ (by simp [serialApply, setFloatParam])]
    simp [serialApply, setFloatParam]
  · intro s; rfl
  · intro ng raw draw; simp [update_Noise]
  · intro pd r p; simp [update_Photodiode, PD_newGain]
  · intro pd r p; simp [update_Photodiode, PD_effDecay]
  · intro pd r p; simp [update_Photodiode, PD_effRecovery]
  · intro syn dd dIn rp rv mn mx ao
    simp only [update_Synapse]
    split_ifs <;> simp_all
  · intro syn dd dIn rp rv mn mx ao
    simp only [update_Synapse]
    split_ifs <;> simp_all
  · intro st a b
    have hp := stimPotPhase_freq_frozen { st with frequency_enable := false } a b rfl
    simp only [update_StimulusOutput]
    split_ifs with hc
    · have ho := stimOutputPhase_proj (stimPotPhase { st with frequency_enable := false } a b)
      have htr := stimTriggerPhase_proj (stimOutputPhase (stimPotPhase { st with frequency_enable := false } a b))
      have hw := stimWrapPhase_proj (stimTriggerPhase (stimOutputPhase (stimPotPhase { st with frequency_enable := false } a b)))
      rw [hw.2.2.2.2.1, htr.2.2.2.2.1, ho.1, hp.1]
    · rw [(stimCustomPhase_proj _).1, hp.1]
  · intro st a b
    have hp := stimPotPhase_str_frozen { st with strength_enable := false } a b rfl
    simp only [update_StimulusOutput]
    split_ifs with hc
    · have ho := stimOutputPhase_proj (stimPotPhase { st with strength_enable := false } a b)
      have htr := stimTriggerPhase_proj (stimOutputPhase (stimPotPhase { st with strength_enable := false } a b))
      have hw := stimWrapPhase_proj (stimTriggerPhase (stimOutputPhase (stimPotPhase { st with strength_enable := false } a b)))
      constructor
      · rw [hw.2.2.2.2.2.1, htr.2.2.2.2.2.1, ho.2.1, hp.1]
      · rw [hw.2.2.2.2.2.2.1, htr.2.2.2.2.2.2.1, ho.2.2.1, hp.2.1]
    · exact ⟨by rw [(stimCustomPhase_proj _).2.1, hp.1],
             by rw [(stimCustomPhase_proj _).2.2.1, hp.2.1]⟩

/-! ## C2: a set command with a missing argument is partially applied -/

/-- C2 counterexample: dispatching `IC1` with a missing argument does change
state: the clamp's autonomy flag is cleared (it was `true` in the initial
state), so the command is not rejected outright as the claim states. -/
theorem claim_C2_counterexample :
    (serialApply Cmd.IC1 none initState).IC.enable = false
  ∧ initState.IC.enable = true := ⟨rfl, rfl⟩

/-- C2 amended: for every set command dispatched with a missing numeric
argument, the target parameter keeps its previous value, but the target's
autonomy flag is nonetheless cleared — the command is partially applied
rather than rejected.  (`DT` and `NEU`, which have no autonomy flag, are
fully rejected.) -/
theorem claim_C2_missing_arg_partial :
    ∀ s : DeviceState,
    ((serialApply Cmd.FR1 none s).stim.freq = s.stim.freq
      ∧ (serialApply Cmd.FR1 none s).stim.frequency_enable = false)
  ∧ ((serialApply Cmd.ST1 none s).stim.str_digital = s.stim.str_digital
      ∧ (serialApply Cmd.ST1 none s).stim.str_analog = s.stim.str_analog
      ∧ (serialApply Cmd.ST1 none s).stim.strength_enable = false)
  ∧ ((serialApply Cmd.SC1 none s).stim.value_custom = s.stim.value_custom
      ∧ (serialApply Cmd.SC1 none s).stim.custom_enable = false)
  ∧ ((serialApply Cmd.PG1 none s).PD.gain = s.PD.gain
      ∧ (serialApply Cmd.PG1 none s).PD.gain_enable = false)
  ∧ ((serialApply Cmd.PD1 none s).PD.decay = s.PD.decay
      ∧ (serialApply Cmd.PD1 none s).PD.decay_enable = false)
  ∧ ((serialApply Cmd.PR1 none s).PD.recovery = s.PD.recovery
      ∧ (serialApply Cmd.PR1 none s).PD.recovery_enable = false)
  ∧ ((serialApply Cmd.IC1 none s).IC.current_clamp = s.IC.current_clamp
      ∧ (serialApply Cmd.IC1 none s).IC.enable = false)
  ∧ ((serialApply Cmd.NO1 none s).noise.current = s.noise.current
      ∧ (serialApply Cmd.NO1 none s).noise.enable = false)
  ∧ ((serialApply Cmd.SG11 none s).syn1.gain = s.syn1.gain
      ∧ (serialApply Cmd.SG11 none s).syn1.gain_enable = false)
  ∧ ((serialApply Cmd.SD11 none s).syn1.decay = s.syn1.decay
      ∧ (serialApply Cmd.SD11 none s).syn1.decay_enable = false)
  ∧ ((serialApply Cmd.SG21 none s).syn2.gain = s.syn2.gain
      ∧ (serialApply Cmd.SG21 none s).syn2.gain_enable = false)
  ∧ ((serialApply Cmd.SD21 none s).syn2.decay = s.syn2.decay
      ∧ (serialApply Cmd.SD21 none s).syn2.decay_enable = false)
  ∧ serialApply Cmd.DT none s = s
  ∧ serialApply Cmd.NEU none s = s := by
  intro s
  refine ⟨⟨rfl, rfl⟩, ⟨rfl, rfl, rfl⟩, ⟨rfl, rfl⟩, ⟨rfl, rfl⟩, ⟨rfl, rfl⟩, ⟨rfl, rfl⟩,
    ⟨rfl, rfl⟩, ⟨rfl, rfl⟩, ⟨rfl, rfl⟩, ⟨rfl, rfl⟩, ⟨rfl, rfl⟩, ⟨rfl, rfl⟩, rfl, rfl⟩

/-! ## C4: the two transports' dispatchers -/

/-- C4 counterexample: `DT 500` sets the tick period to `500` through the
serial handler, but the network dispatcher clamps it to `1000` — the two
transports do not apply the same mutation for this command and argument. -/
theorem claim_C4_counterexample :
    (dispatchToken Cmd.DT true 500 initState).timing.step_us = 1000
  ∧ (serialApply Cmd.DT (some 500) initState).timing.step_us = 500
  ∧ (1000 : ℤ) ≠ 500 := by
  have ht : ratTrunc (500 : ℚ) = 500 := by
    rw [ratTrunc, if_pos (by norm_num)]
    norm_num [Int.floor_ofNat]
  refine ⟨?_, ?_, by decide⟩
  · simp only [dispatchToken, ht]
    norm_num
  · simp only [serialApply, ht]
    decide

/-- C4 amended: the network dispatcher applies exactly the same mutation as
the serial handler for every command of the vocabulary with a provided
argument, except `DT`: there the network side clamps the period into
`[1000, 1000000]` µs while the serial side stores the raw value, so the two
agree on `DT` only when the truncated argument already lies in that range. -/
theorem claim_C4_dispatch_equivalence :
    (∀ c : Cmd, c ≠ Cmd.DT → ∀ (v : ℚ) (s : DeviceState),
        dispatchToken c true v s = serialApply c (some v) s)
  ∧ (∀ (v : ℚ) (s : DeviceState), 1000 ≤ ratTrunc v → ratTrunc v ≤ 1000000 →
        dispatchToken Cmd.DT true v s = serialApply Cmd.DT (some v) s) := by
  constructor
  · intro c hc v s
    cases c <;> first | (exact absurd rfl hc) | rfl
  · intro v s h1 h2
    simp only [dispatchToken, serialApply, if_true]
    rw [if_neg (by omega), if_neg (by omega), Int.emod_eq_of_lt (by omega) (by omega)]

/-- C4 witness: a non-`DT` command agrees on both transports, and `DT 3000`
(in range) agrees as well. -/
theorem claim_C4_witness :
    dispatchToken Cmd.IC1 true 120 initState = serialApply Cmd.IC1 (some 120) initState
  ∧ 1000 ≤ ratTrunc (3000 : ℚ) ∧ ratTrunc (3000 : ℚ) ≤ 1000000
  ∧ dispatchToken Cmd.DT true 3000 initState = serialApply Cmd.DT (some 3000) initState := by
  have ht : ratTrunc (3000 : ℚ) = 3000 := by
    rw [ratTrunc, if_pos (by norm_num)]
    norm_num [Int.floor_ofNat]
  exact ⟨claim_C4_dispatch_equivalence.1 Cmd.IC1 (by decide) 120 initState,
         by rw [ht]; norm_num, by rw [ht]; norm_num,
         claim_C4_dispatch_equivalence.2 3000 initState (by rw [ht]; norm_num)
           (by rw [ht]; norm_num)⟩

/-! ## C5: the noise generator's epsilon guard -/

/-- C5 (code bug): the source writes `fabsf(noise.newSigma != noise.sigma) >
1e-3f`, applying `fabsf` to a boolean, so the Gaussian parameterization is
recomputed whenever the new standard deviation differs from the stored one
**at all**.  At the failing input below the new σ differs from the stored σ
by at most `1e-3` (and is distinct), yet the distribution is re-parameterized
(`sigma` is overwritten with `newSigma`), contradicting both the claim and
the source's own comment ("if sigma has changed significantly"). -/
theorem claim_C5_epsilon_guard_broken :
    |(update_Noise { noise_init with sigma := 3/1000 } 274 (fun _ _ => 0)).newSigma
        - (3/1000 : ℚ)| ≤ 1/1000
  ∧ (update_Noise { noise_init with sigma := 3/1000 } 274 (fun _ _ => 0)).newSigma ≠ 3/1000
  ∧ (update_Noise { noise_init with sigma := 3/1000 } 274 (fun _ _ => 0)).sigma = 5/1638
  ∧ (update_Noise { noise_init with sigma := 3/1000 } 274 (fun _ _ => 0)).var
      = (5/1638) * (5/1638) := by
  have hpo : potOffset = 273 := by decide
  have h274 : ¬ ((274 : ℤ) ≤ potOffset) := by rw [hpo]; decide
  refine ?_
  simp only [update_Noise, noise_init, hpo, h274]
  norm_num [abs_le]

/-! ## C6: the synaptic exponential trace -/

theorem synapse_frozen_tick (s : Synapse) (dd : ℚ) (p v : ℤ) (mn mx ao : ℚ)
    (hg : s.gain_enable = false) (hd : s.decay_enable = false) :
    (update_Synapse s dd false p v mn mx ao).current = s.current * s.decay
  ∧ (update_Synapse s dd false p v mn mx ao).decay = s.decay
  ∧ (update_Synapse s dd false p v mn mx ao).gain_enable = false
  ∧ (update_Synapse s dd false p v mn mx ao).decay_enable = false := by
  simp [update_Synapse, hg, hd]

theorem synRunNoEdge_pow (dd mn mx ao : ℚ) :
    ∀ (ins : List (ℤ × ℤ)) (s : Synapse),
      s.gain_enable = false → s.decay_enable = false →
      (synRunNoEdge dd mn mx ao s ins).current = s.current * s.decay ^ ins.length := by
  intro ins
  induction ins with
  | nil => intro s _ _; simp [synRunNoEdge]
  | cons i is ih =>
    intro s hg hd
    have h1 := synapse_frozen_tick s dd i.1 i.2 mn mx ao hg hd
    rw [synRunNoEdge, ih _ h1.2.2.1 h1.2.2.2, h1.1, h1.2.1]
    rw [List.length_cons, pow_succ]
    ring

/-- C6 counterexample: with manual gain `g = 1` and manual decay `d = 1/2`,
after the single edge tick (and `n = 0` subsequent decay ticks) the synapse
current is `1/2`, not `g * d^0 = 1`: the edge tick itself also applies the
decay, so the claimed value `g * d^n` is off by one decay factor. -/
theorem claim_C6_counterexample :
    (update_Synapse (synManual 1 (1/2)) (995/1000) true 0 0 (-110) 100 (-27/4)).current = 1/2
  ∧ (1 : ℚ) * (1/2 : ℚ) ^ (0 : ℕ) = 1
  ∧ (1/2 : ℚ) ≠ 1 := by
  refine ⟨?_, by norm_num, by norm_num⟩
  simp [update_Synapse, synManual, syn1_init]

/-- C6 amended: starting from zero current with manual gain `g` and manual
decay `d`, one edge tick followed by `n` decay-only ticks leaves the synapse
current at `g * d^(n+1)` — the additive impulse `g` is multiplied by the
decay on the edge tick itself and once per subsequent tick (exact in ℚ). -/
theorem claim_C6_synapse_trace (g d dd mn mx ao : ℚ) (i0 : ℤ × ℤ)
    (ins : List (ℤ × ℤ)) :
    (synRunNoEdge dd mn mx ao
        (update_Synapse (synManual g d) dd true i0.1 i0.2 mn mx ao) ins).current
      = g * d ^ (ins.length + 1) := by
  have hedge : (update_Synapse (synManual g d) dd true i0.1 i0.2 mn mx ao).current = g * d
      ∧ (update_Synapse (synManual g d) dd true i0.1 i0.2 mn mx ao).decay = d
      ∧ (update_Synapse (synManual g d) dd true i0.1 i0.2 mn mx ao).gain_enable = false
      ∧ (update_Synapse (synManual g d) dd true i0.1 i0.2 mn mx ao).decay_enable = false := by
    simp [update_Synapse, synManual, syn1_init]
  rw [synRunNoEdge_pow dd mn mx ao ins _ hedge.2.2.1 hedge.2.2.2, hedge.1, hedge.2.1,
    pow_succ]
  ring

/-! ## C7: preset selection is clamped -/

/-- C7: for every preset index at or beyond the table size, `NEU i` behaves
identically to `NEU 0`: the index is clamped into `[0, tableSize)`, the
clamped entry's `{a,b,c,d,restPotential}` are copied into the neuron state
together, `v` is reset to the resting potential and `u` to `b * restPotential`. -/
theorem claim_C7_preset_clamp (i : ℕ) (s : DeviceState)
    (h : IzhikevichModelCount ≤ i) :
    SetNeuronModel (clampToModel i) s = SetNeuronModel (clampToModel 0) s
  ∧ clampToModel i < IzhikevichModelCount
  ∧ (SetNeuronModel (clampToModel i) s).neuron.a = (getIzhikevichParams (clampToModel i)).a
  ∧ (SetNeuronModel (clampToModel i) s).neuron.b = (getIzhikevichParams (clampToModel i)).b
  ∧ (SetNeuronModel (clampToModel i) s).neuron.c = (getIzhikevichParams (clampToModel i)).c
  ∧ (SetNeuronModel (clampToModel i) s).neuron.d = (getIzhikevichParams (clampToModel i)).d
  ∧ (SetNeuronModel (clampToModel i) s).neuron.v_rest
      = (getIzhikevichParams (clampToModel i)).v_rest
  ∧ (SetNeuronModel (clampToModel i) s).neuron.v
      = (getIzhikevichParams (clampToModel i)).v_rest
  ∧ (SetNeuronModel (clampToModel i) s).neuron.u
      = (getIzhikevichParams (clampToModel i)).b * (getIzhikevichParams (clampToModel i)).v_rest := by
  have hc : clampToModel i = 0 := by simp [clampToModel, h]
  rw [hc]
  exact ⟨rfl, by decide, rfl, rfl, rfl, rfl, rfl, rfl, rfl⟩

/-- C7 witness: preset index 25 (≥ table size 20) behaves as preset 0. -/
theorem claim_C7_witness :
    IzhikevichModelCount ≤ 25
  ∧ SetNeuronModel (clampToModel 25) initState = SetNeuronModel (clampToModel 0) initState := by
  refine ⟨by decide, (claim_C7_preset_clamp 25 initState (by decide)).1⟩

/-! ## C3: the telemetry frame -/

theorem q_round_eq_roundAway (x : ℚ) : q_round x = roundAway x := by
  rcases le_or_lt 0 x with h | h
  · rw [q_round, if_pos h, roundAway, if_pos h, ratTrunc, if_pos (by linarith)]
  · rw [q_round, if_neg (by exact not_le.mpr h), roundAway, if_neg (by exact not_le.mpr h),
      ratTrunc, if_neg (by intro hc; linarith),
      show (x - 1/2 : ℚ) = -(-x + 1/2) by ring, Int.ceil_neg]

theorem decodeI16_le16 (n : ℤ) (h : int16Range n) :
    decodeI16 (lo8 n) (hi8 n) = n := by
  obtain ⟨ha, hb⟩ := h
  have hm0 : 0 ≤ n % 65536 := Int.emod_nonneg n (by norm_num)
  simp only [decodeI16, lo8, hi8]
  push_cast [Int.toNat_of_nonneg hm0]
  split_ifs <;> omega

theorem wrap16_eq_of_range (n : ℤ) (h : int16Range n) : wrap16 n = n := by
  obtain ⟨ha, hb⟩ := h
  unfold wrap16
  omega

/-- C3: the telemetry encoder emits the two header bytes `0xAA 0x55` followed
by an exactly 16-byte payload of eight signed 16-bit fields in the order
v, stimState, totalCurrent, syn1Vm, syn1Current, syn2Vm, syn2Current,
trigger; each quantized field decodes to `roundAway (value * scale)`
(symmetric rounding, ties away from zero) with voltage ×100, current ×100,
synapse-voltage ×1 and state/trigger unscaled, assuming each scaled value
fits in an `int16`. -/
theorem claim_C3_telemetry_frame (s : DeviceState)
    (hv : int16Range (roundAway (s.neuron.v_out * V_SCALE)))
    (hst : int16Range s.stim.state)
    (hi : int16Range (roundAway (s.neuron.total_current * I_SCALE)))
    (hs1v : int16Range (roundAway (s.syn1.Vm * SYN_V_SCALE)))
    (hs1c : int16Range (roundAway (s.syn1.current * I_SCALE)))
    (hs2v : int16Range (roundAway (s.syn2.Vm * SYN_V_SCALE)))
    (hs2c : int16Range (roundAway (s.syn2.current * I_SCALE)))
    (htr : int16Range s.stim.trigger) :
    (send_SamplePacket s).length = 18
  ∧ (send_SamplePacket s).take 2 = [170, 85]
  ∧ ((send_SamplePacket s).drop 2).length = 16
  ∧ decodePayload ((send_SamplePacket s).drop 2)
      = [ roundAway (s.neuron.v_out * V_SCALE)
        , s.stim.state
        , roundAway (s.neuron.total_current * I_SCALE)
        , roundAway (s.syn1.Vm * SYN_V_SCALE)
        , roundAway (s.syn1.current * I_SCALE)
        , roundAway (s.syn2.Vm * SYN_V_SCALE)
        , roundAway (s.syn2.current * I_SCALE)
        , s.stim.trigger ] := by
  refine ⟨by simp [send_SamplePacket, le16], by simp [send_SamplePacket, le16],
    by simp [send_SamplePacket, le16], ?_⟩
  simp only [send_SamplePacket, le16, List.cons_append, List.nil_append,
    List.drop_succ_cons, List.drop_zero, decodePayload, q_round_eq_roundAway]
  rw [decodeI16_le16 _ hv, decodeI16_le16 _ hi, decodeI16_le16 _ hs1v,
    decodeI16_le16 _ hs1c, decodeI16_le16 _ hs2v, decodeI16_le16 _ hs2c,
    wrap16_eq_of_range _ hst, wrap16_eq_of_range _ htr,
    decodeI16_le16 _ hst, decodeI16_le16 _ htr]

theorem floor_intCast_add_half (n : ℤ) : ⌊(n : ℚ) + 1/2⌋ = n := by
  rw [Int.floor_eq_iff]
  refine ⟨by linarith, by linarith⟩

theorem roundAway_intCast (n : ℤ) : roundAway (n : ℚ) = n := by
  rcases le_or_lt 0 n with h | h
  · rw [roundAway, if_pos (by exact_mod_cast h), floor_intCast_add_half]
  · rw [roundAway, if_neg (by intro hc; exact absurd (by exact_mod_cast hc) (not_le.mpr h)),
      show (-(n : ℚ) + 1/2) = ((-n : ℤ) : ℚ) + 1/2 by push_cast; ring,
      floor_intCast_add_half]
    ring

/-- C3 witness: a fully concrete state round-trips through the encoder; the
two half-integer synapse voltages exhibit the ties-away-from-zero rounding
(`2.5 ↦ 3`, `-3.5 ↦ -4`). -/
theorem claim_C3_witness :
    decodePayload ((send_SamplePacket
        { initState with
          neuron := { neuron_init with v_out := -6543/100, total_current := 1234/100 }
        , syn1 := { syn1_init with Vm := 5/2, current := 0 }
        , syn2 := { syn2_init with Vm := -7/2, current := 1/100 }
        , stim := { stim_init with state := 1, trigger := 1 } }).drop 2)
      = [-6543, 1, 1234, 3, 0, -4, 1, 1]
  ∧ (send_SamplePacket
        { initState with
          neuron := { neuron_init with v_out := -6543/100, total_current := 1234/100 }
        , syn1 := { syn1_init with Vm := 5/2, current := 0 }
        , syn2 := { syn2_init with Vm := -7/2, current := 1/100 }
        , stim := { stim_init with state := 1, trigger := 1 } }).take 2 = [170, 85] := by
  have e1 : roundAway ((-6543/100 : ℚ) * V_SCALE) = -6543 := by
    rw [show ((-6543/100 : ℚ) * V_SCALE) = ((-6543 : ℤ) : ℚ) by norm_num [V_SCALE],
      roundAway_intCast]
  have e2 : roundAway ((1234/100 : ℚ) * I_SCALE) = 1234 := by
    rw [show ((1234/100 : ℚ) * I_SCALE) = ((1234 : ℤ) : ℚ) by norm_num [I_SCALE],
      roundAway_intCast]
  have e3 : roundAway ((5/2 : ℚ) * SYN_V_SCALE) = 3 := by
    rw [roundAway, if_pos (by norm_num [SYN_V_SCALE]),
      show ((5/2 : ℚ) * SYN_V_SCALE + 1/2) = ((3 : ℤ) : ℚ) by norm_num [SYN_V_SCALE],
      Int.floor_intCast]
  have e4 : roundAway ((0 : ℚ) * I_SCALE) = 0 := by
    rw [show ((0 : ℚ) * I_SCALE) = ((0 : ℤ) : ℚ) by norm_num, roundAway_intCast]
  have e5 : roundAway ((-7/2 : ℚ) * SYN_V_SCALE) = -4 := by
    rw [roundAway, if_neg (by norm_num [SYN_V_SCALE]),
      show (-((-7/2 : ℚ) * SYN_V_SCALE) + 1/2) = ((4 : ℤ) : ℚ) by norm_num [SYN_V_SCALE],
      Int.floor_intCast]
  have e6 : roundAway ((1/100 : ℚ) * I_SCALE) = 1 := by
    rw [show ((1/100 : ℚ) * I_SCALE) = ((1 : ℤ) : ℚ) by norm_num [I_SCALE],
      roundAway_intCast]
  have h := claim_C3_telemetry_frame
    { initState with
      neuron := { neuron_init with v_out := -6543/100, total_current := 1234/100 }
    , syn1 := { syn1_init with Vm := 5/2, current := 0 }
    , syn2 := { syn2_init with Vm := -7/2, current := 1/100 }
    , stim := { stim_init with state := 1, trigger := 1 } }
    (by rw [show ({ initState with
          neuron := { neuron_init with v_out := -6543/100, total_current := 1234/100 }
        , syn1 := { syn1_init with Vm := 5/2, current := 0 }
        , syn2 := { syn2_init with Vm := -7/2, current := 1/100 }
        , stim := { stim_init with state := 1, trigger := 1 } } : DeviceState).neuron.v_out
        = -6543/100 from rfl, e1]; exact ⟨by norm_num, by norm_num⟩)
    (by exact ⟨by norm_num, by norm_num⟩)
    (by rw [show ({ initState with
          neuron := { neuron_init with v_out := -6543/100, total_current := 1234/100 }
        , syn1 := { syn1_init with Vm := 5/2, current := 0 }
        , syn2 := { syn2_init with Vm := -7/2, current := 1/100 }
        , stim := { stim_init with state := 1, trigger := 1 } } : DeviceState).neuron.total_current
        = 1234/100 from rfl, e2]; exact ⟨by norm_num, by norm_num⟩)
    (by rw [show ((5/2 : ℚ)) = (5/2 : ℚ) from rfl]; rw [show ({ initState with
          neuron := { neuron_init with v_out := -6543/100, total_current := 1234/100 }
        , syn1 := { syn1_init with Vm := 5/2, current := 0 }
        , syn2 := { syn2_init with Vm := -7/2, current := 1/100 }
        , stim := { stim_init with state := 1, trigger := 1 } } : DeviceState).syn1.Vm
        = 5/2 from rfl, e3]; exact ⟨by norm_num, by norm_num⟩)
    (by rw [show ({ initState with
          neuron := { neuron_init with v_out := -6543/100, total_current := 1234/100 }
        , syn1 := { syn1_init with Vm := 5/2, current := 0 }
        , syn2 := { syn2_init with Vm := -7/2, current := 1/100 }
        , stim := { stim_init with state := 1, trigger := 1 } } : DeviceState).syn1.current
        = 0 from rfl, e4]; exact ⟨by norm_num, by norm_num⟩)
    (by rw [show ({ initState with
          neuron := { neuron_init with v_out := -6543/100, total_current := 1234/100 }
        , syn1 := { syn1_init with Vm := 5/2, current := 0 }
        , syn2 := { syn2_init with Vm := -7/2, current := 1/100 }
        , stim := { stim_init with state := 1, trigger := 1 } } : DeviceState).syn2.Vm
        = -7/2 from rfl, e5]; exact ⟨by norm_num, by norm_num⟩)
    (by rw [show ({ initState with
          neuron := { neuron_init with v_out := -6543/100, total_current := 1234/100 }
        , syn1 := { syn1_init with Vm := 5/2, current := 0 }
        , syn2 := { syn2_init with Vm := -7/2, current := 1/100 }
        , stim := { stim_init with state := 1, trigger := 1 } } : DeviceState).syn2.current
        = 1/100 from rfl, e6]; exact ⟨by norm_num, by norm_num⟩)
    (by exact ⟨by norm_num, by norm_num⟩)
  refine ⟨?_, h.2.1⟩
  rw [h.2.2.2]
  rw [show ({ initState with
      neuron := { neuron_init with v_out := -6543/100, total_current := 1234/100 }
    , syn1 := { syn1_init with Vm := 5/2, current := 0 }
    , syn2 := { syn2_init with Vm := -7/2, current := 1/100 }
    , stim := { stim_init with state := 1, trigger := 1 } } : DeviceState).neuron.v_out
    = -6543/100 from rfl, e1]
  rw [show ({ initState with
      neuron := { neuron_init with v_out := -6543/100, total_current := 1234/100 }
    , syn1 := { syn1_init with Vm := 5/2, current := 0 }
    , syn2 := { syn2_init with Vm := -7/2, current := 1/100 }
    , stim := { stim_init with state := 1, trigger := 1 } } : DeviceState).neuron.total_current
    = 1234/100 from rfl, e2]
  rw [show ({ initState with
      neuron := { neuron_init with v_out := -6543/100, total_current := 1234/100 }
    , syn1 := { syn1_init with Vm := 5/2, current := 0 }
    , syn2 := { syn2_init with Vm := -7/2, current := 1/100 }
    , stim := { stim_init with state := 1, trigger := 1 } } : DeviceState).syn1.Vm
    = 5/2 from rfl, e3]
  rw [show ({ initState with
      neuron := { neuron_init with v_out := -6543/100, total_current := 1234/100 }
    , syn1 := { syn1_init with Vm := 5/2, current := 0 }
    , syn2 := { syn2_init with Vm := -7/2, current := 1/100 }
    , stim := { stim_init with state := 1, trigger := 1 } } : DeviceState).syn1.current
    = 0 from rfl, e4]
  rw [show ({ initState with
      neuron := { neuron_init with v_out := -6543/100, total_current := 1234/100 }
    , syn1 := { syn1_init with Vm := 5/2, current := 0 }
    , syn2 := { syn2_init with Vm := -7/2, current := 1/100 }
    , stim := { stim_init with state := 1, trigger := 1 } } : DeviceState).syn2.Vm
    = -7/2 from rfl, e5]
  rw [show ({ initState with
      neuron := { neuron_init with v_out := -6543/100, total_current := 1234/100 }
    , syn1 := { syn1_init with Vm := 5/2, current := 0 }
    , syn2 := { syn2_init with Vm := -7/2, current := 1/100 }
    , stim := { stim_init with state := 1, trigger := 1 } } : DeviceState).syn2.current
    = 1/100 from rfl, e6]

/-! ## C8: one trigger per completed duty cycle -/

theorem stim_cycle_tail (ins : List (ℤ × ℤ)) :
    ∀ st : Stimulus, st.custom_enable = true → st.trigger_enable = false →
      st.counter + (ins.length : ℤ) = st.steps → ins ≠ [] →
      (∀ t ∈ stimTriggerTrace st ins, t = 0) ∧
      (stimRun st ins).counter = 0 ∧
      (stimRun st ins).trigger_enable = true ∧
      (stimRun st ins).custom_enable = true := by
  induction ins with
  | nil => intro st _ _ _ hne; exact absurd rfl hne
  | cons i is ih =>
    intro st hc ht hlen _
    have hch := stepAuto_char st i.1 i.2 hc
    have htrig : (update_StimulusOutput st i.1 i.2).trigger = 0 := by
      rw [hch.1, ht]; rfl
    cases is with
    | nil =>
      have hwrap : st.steps ≤ st.counter + 1 := by simp at hlen; omega
      refine ⟨?_, ?_, ?_, ?_⟩
      · intro t htm
        simp only [stimTriggerTrace, List.mem_singleton] at htm
        rw [htm, htrig]
      · simp only [stimRun]
        rw [hch.2.1, if_pos hwrap]
      · simp only [stimRun]
        rw [hch.2.2.1, if_pos hwrap]
      · simp only [stimRun]
        exact hch.2.2.2.1
    | cons j js =>
      have hnwrap : ¬ (st.steps ≤ st.counter + 1) := by
        simp only [List.length_cons] at hlen; push_cast at hlen; omega
      have h1 : (update_StimulusOutput st i.1 i.2).counter = st.counter + 1 := by
        rw [hch.2.1, if_neg hnwrap]
      have h2 : (update_StimulusOutput st i.1 i.2).trigger_enable = false := by
        rw [hch.2.2.1, if_neg hnwrap]
      have h3 : (update_StimulusOutput st i.1 i.2).steps = st.steps :=
        hch.2.2.2.2 (by omega)
      have h4 : (update_StimulusOutput st i.1 i.2).custom_enable = true := hch.2.2.2.1
      have hlen' : (update_StimulusOutput st i.1 i.2).counter + (((j :: js) : List (ℤ × ℤ)).length : ℤ)
          = (update_StimulusOutput st i.1 i.2).steps := by
        rw [h1, h3]
        simp only [List.length_cons] at hlen ⊢
        push_cast at hlen ⊢
        omega
      obtain ⟨ta, tb, tc, td⟩ := ih (update_StimulusOutput st i.1 i.2) h4 h2 hlen' (by simp)
      refine ⟨?_, ?_, ?_, ?_⟩
      · intro t htm
        rw [stimTriggerTrace] at htm
        rcases List.mem_cons.mp htm with h | h
        · rw [h]; exact htrig
        · exact ta t h
      · rw [stimRun]; exact tb
      · rw [stimRun]; exact tc
      · rw [stimRun]; exact td

/-- C8: in auto mode, over a full duty cycle entered with the trigger flag
armed (as every cycle after the first wrap is: the run ends with `counter =
0` and the flag armed again), the trigger output is `1` on exactly one tick
and `0` on every other tick of the cycle. -/
theorem claim_C8_trigger_once_per_cycle (st : Stimulus) (ins : List (ℤ × ℤ))
    (hc : st.custom_enable = true) (h0 : st.counter = 0)
    (ht : st.trigger_enable = true) (h1 : 1 ≤ st.steps)
    (hlen : (ins.length : ℤ) = st.steps) :
    (stimTriggerTrace st ins).count 1 = 1
  ∧ (∀ t ∈ stimTriggerTrace st ins, t = 0 ∨ t = 1)
  ∧ (stimRun st ins).counter = 0
  ∧ (stimRun st ins).trigger_enable = true := by
  cases ins with
  | nil => exfalso; simp at hlen; omega
  | cons i is =>
    have hch := stepAuto_char st i.1 i.2 hc
    have htrig1 : (update_StimulusOutput st i.1 i.2).trigger = 1 := by
      rw [hch.1, ht]; rfl
    cases is with
    | nil =>
      have hwrap : st.steps ≤ st.counter + 1 := by simp at hlen; omega
      refine ⟨?_, ?_, ?_, ?_⟩
      · simp only [stimTriggerTrace, htrig1]
        rfl
      · intro t htm
        simp only [stimTriggerTrace, List.mem_singleton] at htm
        right; rw [htm, htrig1]
      · simp only [stimRun]
        rw [hch.2.1, if_pos hwrap]
      · simp only [stimRun]
        rw [hch.2.2.1, if_pos hwrap]
    | cons j js =>
      have hnwrap : ¬ (st.steps ≤ st.counter + 1) := by
        simp only [List.length_cons] at hlen; push_cast at hlen; omega
      have hh1 : (update_StimulusOutput st i.1 i.2).counter = st.counter + 1 := by
        rw [hch.2.1, if_neg hnwrap]
      have hh2 : (update_StimulusOutput st i.1 i.2).trigger_enable = false := by
        rw [hch.2.2.1, if_neg hnwrap]
      have hh3 : (update_StimulusOutput st i.1 i.2).steps = st.steps :=
        hch.2.2.2.2 (by omega)
      have hh4 : (update_StimulusOutput st i.1 i.2).custom_enable = true := hch.2.2.2.1
      have hlen' : (update_StimulusOutput st i.1 i.2).counter + (((j :: js) : List (ℤ × ℤ)).length : ℤ)
          = (update_StimulusOutput st i.1 i.2).steps := by
        rw [hh1, hh3]
        simp only [List.length_cons] at hlen ⊢
        push_cast at hlen ⊢
        omega
      obtain ⟨ta, tb, tc, td⟩ :=
        stim_cycle_tail (j :: js) (update_StimulusOutput st i.1 i.2) hh4 hh2 hlen' (by simp)
      refine ⟨?_, ?_, ?_, ?_⟩
      · rw [stimTriggerTrace, htrig1]
        have hz : (stimTriggerTrace (update_StimulusOutput st i.1 i.2) (j :: js)).count 1 = 0 := by
          rw [List.count_eq_zero]
          intro hmem
          have := ta 1 hmem
          omega
        rw [List.count_cons_self, hz]
      · intro t htm
        rw [stimTriggerTrace] at htm
        rcases List.mem_cons.mp htm with h | h
        · right; rw [h, htrig1]
        · left; exact ta t h
      · rw [stimRun]; exact tb
      · rw [stimRun]; exact tc

/-- C8 witness: a 3-step cycle from the armed cycle start fires the trigger
exactly once and restores the cycle-start invariant. -/
theorem claim_C8_witness :
    (stimTriggerTrace { stim_init with steps := 3, trigger_enable := true }
        [(0, 0), (0, 0), (0, 0)]).count 1 = 1
  ∧ (stimRun { stim_init with steps := 3, trigger_enable := true }
        [(0, 0), (0, 0), (0, 0)]).counter = 0
  ∧ (stimRun { stim_init with steps := 3, trigger_enable := true }
        [(0, 0), (0, 0), (0, 0)]).trigger_enable = true := by
  have h := claim_C8_trigger_once_per_cycle
    { stim_init with steps := 3, trigger_enable := true }
    [(0, 0), (0, 0), (0, 0)] rfl rfl rfl (by norm_num) (by norm_num)
  exact ⟨h.1, h.2.2.1, h.2.2.2⟩

/-! ## C9: adaptive amplitude monotonicity -/

/-- C9 counterexample: with positive photodiode current (`10`) and positive
gain polarity, a single tick *increases* the adaptive amplitude (from `1` to
`203/200`): the decay step lowers it below `1`, and the recovery step of the
same tick adds back more than the decay removed.  This refutes "monotonically
non-increasing while current > 0 and polarity positive" as stated. -/
theorem claim_C9_counterexample :
    0 < PD_newCurrent { PD_init with gain_enable := false, gain := 9/20 } 100 0
  ∧ PD_polarity { PD_init with gain_enable := false, gain := 9/20 } 0 = 1
  ∧ ({ PD_init with gain_enable := false, gain := 9/20 } : Photodiode).amp = 1
  ∧ (update_Photodiode { PD_init with gain_enable := false, gain := 9/20 } 100 0).amp = 203/200 := by
  have hsum : PD_newSum { PD_init with gain_enable := false, gain := 9/20 } 100 = 100 := by decide
  have havg : PD_newAverage { PD_init with gain_enable := false, gain := 9/20 } 100 = 10 := by
    rw [PD_newAverage, hsum,
      show Int.tdiv (100 : ℤ) ((({ PD_init with gain_enable := false, gain := 9/20 } : Photodiode).avgWindow : ℕ) : ℤ) = 10 from by decide]
    norm_num
  have hgain : PD_newGain { PD_init with gain_enable := false, gain := 9/20 } 0 = 9/20 := by
    rw [PD_newGain, if_neg (by decide)]
  have hpol : PD_polarity { PD_init with gain_enable := false, gain := 9/20 } 0 = 1 := by
    rw [PD_polarity, hgain, if_pos (by norm_num)]
  have hcur : PD_newCurrent { PD_init with gain_enable := false, gain := 9/20 } 100 0 = 10 := by
    rw [PD_newCurrent, havg, hgain,
      show ({ PD_init with gain_enable := false, gain := 9/20 } : Photodiode).inv_scaling = 20/9 from rfl,
      show ({ PD_init with gain_enable := false, gain := 9/20 } : Photodiode).amp = 1 from rfl]
    norm_num
  have hdec : PD_effDecay { PD_init with gain_enable := false, gain := 9/20 } = 1/1000 := by
    rw [PD_effDecay, if_pos (by decide)]
  have hrec : PD_effRecovery { PD_init with gain_enable := false, gain := 9/20 } = 25/1000 := by
    rw [PD_effRecovery, if_pos (by decide)]
  have hafter : PD_ampAfterDecay { PD_init with gain_enable := false, gain := 9/20 } 100 0 = 99/100 := by
    simp only [PD_ampAfterDecay]
    rw [show ((PD_polarity { PD_init with gain_enable := false, gain := 9/20 } 0 : ℤ) : ℚ) = 1 by rw [hpol]; norm_num, hdec, hcur,
      show ({ PD_init with gain_enable := false, gain := 9/20 } : Photodiode).amp = 1 from rfl,
      show ({ PD_init with gain_enable := false, gain := 9/20 } : Photodiode).ampMin = 0 from rfl]
    norm_num
  refine ⟨by rw [hcur]; norm_num, hpol, rfl, ?_⟩
  show PD_newAmp { PD_init with gain_enable := false, gain := 9/20 } 100 0 = 203/200
  rw [PD_newAmp, hafter, if_pos (by norm_num), hrec]
  norm_num

/-- C9 amended: for the amplitude self-regulation of `update_Photodiode`,
(1) with nonnegative current, positive polarity and nonnegative decay the
amplitude is non-increasing *provided the recovery step does not also fire in
that tick* (post-decay amplitude still ≥ 1); (2) it never falls below
`ampMin` (for nonnegative effective recovery, as in autonomous mode); (3)
when the amplitude is below `1` and no opposing decay applies in the same
tick, it is non-decreasing. -/
theorem claim_C9_amp_monotonicity (pd : Photodiode) (rawPD rawPot : ℤ) :
    ((0 ≤ PD_newCurrent pd rawPD rawPot ∧ PD_polarity pd rawPot = 1
        ∧ 0 ≤ PD_effDecay pd ∧ 1 ≤ PD_ampAfterDecay pd rawPD rawPot)
      → (update_Photodiode pd rawPD rawPot).amp ≤ pd.amp)
  ∧ ((pd.ampMin ≤ pd.amp ∧ 0 ≤ PD_effRecovery pd)
      → pd.ampMin ≤ (update_Photodiode pd rawPD rawPot).amp)
  ∧ ((pd.amp < 1 ∧ 0 ≤ PD_effRecovery pd
        ∧ ((PD_polarity pd rawPot : ℚ) * PD_effDecay pd * PD_newCurrent pd rawPD rawPot ≤ 0
            ∨ pd.amp ≤ pd.ampMin))
      → pd.amp ≤ (update_Photodiode pd rawPD rawPot).amp) := by
  have hamp : (update_Photodiode pd rawPD rawPot).amp = PD_newAmp pd rawPD rawPot := rfl
  refine ⟨?_, ?_, ?_⟩
  · rintro ⟨hcur, hpol, hdec, hnorec⟩
    rw [hamp, PD_newAmp, if_neg (not_lt.mpr hnorec)]
    simp only [PD_ampAfterDecay]
    split_ifs with h1 h2
    · linarith
    · rw [hpol]
      push_cast
      nlinarith [mul_nonneg hdec hcur]
    · exact le_refl _
  · rintro ⟨hmin, hrec⟩
    have hfloor : pd.ampMin ≤ PD_ampAfterDecay pd rawPD rawPot := by
      simp only [PD_ampAfterDecay]
      split_ifs with h1 h2
      · exact le_refl _
      · exact le_of_not_lt h2
      · exact hmin
    rw [hamp, PD_newAmp]
    split_ifs with h
    · linarith
    · exact hfloor
  · rintro ⟨hlt1, hrec, hnd⟩
    have hge : pd.amp ≤ PD_ampAfterDecay pd rawPD rawPot := by
      simp only [PD_ampAfterDecay]
      split_ifs with h1 h2
      · rcases hnd with hnd | hnd <;> linarith
      · rcases hnd with hnd | hnd <;> linarith
      · exact le_refl _
    rw [hamp, PD_newAmp]
    split_ifs with h
    · linarith
    · exact hge

/-- C9 witness: amplitude parts instantiated on concrete states (zero manual
gain: no decay pressure; amplitude `1` stays, amplitude `1/2` recovers). -/
theorem claim_C9_witness :
    (update_Photodiode { PD_init with gain_enable := false } 100 0).amp
      ≤ ({ PD_init with gain_enable := false } : Photodiode).amp
  ∧ ({ PD_init with gain_enable := false } : Photodiode).ampMin
      ≤ (update_Photodiode { PD_init with gain_enable := false } 100 0).amp
  ∧ ({ PD_init with gain_enable := false, amp := 1/2 } : Photodiode).amp
      ≤ (update_Photodiode { PD_init with gain_enable := false, amp := 1/2 } 100 0).amp := by
  have hcur0 : PD_newCurrent { PD_init with gain_enable := false } 100 0 = 0 := by
    simp [PD_newCurrent, PD_newGain, PD_init]
  have hcur0h : PD_newCurrent { PD_init with gain_enable := false, amp := 1/2 } 100 0 = 0 := by
    simp [PD_newCurrent, PD_newGain, PD_init]
  refine ⟨?_, ?_, ?_⟩
  · refine (claim_C9_amp_monotonicity _ 100 0).1 ⟨by rw [hcur0], ?_, ?_, ?_⟩
    · norm_num [PD_polarity, PD_newGain, PD_init]
    · norm_num [PD_effDecay, PD_init]
    · rw [PD_ampAfterDecay, if_pos (by norm_num [PD_init])]
      rw [hcur0]
      norm_num [PD_init]
  · refine (claim_C9_amp_monotonicity _ 100 0).2.1 ⟨by norm_num [PD_init], ?_⟩
    norm_num [PD_effRecovery, PD_init]
  · refine (claim_C9_amp_monotonicity _ 100 0).2.2 ⟨by norm_num [PD_init], ?_, Or.inl ?_⟩
    · norm_num [PD_effRecovery, PD_init]
    · rw [hcur0h]
      norm_num

/-! ## C10: the ring-buffer invariant and the average -/

theorem list_sum_set (l : List ℤ) (n : ℕ) (a : ℤ) (h : n < l.length) :
    (l.set n a).sum = l.sum - l.getD n 0 + a := by
  rw [List.sum_set, if_pos h]
  have hsplit : l.sum = (l.take n).sum + (l.drop n).sum := by
    rw [← List.sum_append, List.take_append_drop]
  rw [List.drop_eq_getElem_cons h, List.sum_cons] at hsplit
  rw [List.getD_eq_getElem l 0 h]
  omega

theorem rotate_set_succ (l : List ℤ) (c : ℕ) (v : ℤ) (h : c < l.length) :
    (l.set c v).rotate ((c + 1) % l.length) = (l.rotate c).drop 1 ++ [v] := by
  have hset : l.set c v = l.take c ++ v :: l.drop (c + 1) :=
    List.set_eq_take_cons_drop v h
  have htake : (l.take c).length = c := by
    rw [List.length_take]
    omega
  have hsplitlen : (l.take c ++ [v]).length = c + 1 := by simp [htake]
  have hRHS : (l.rotate c).drop 1 = l.drop (c + 1) ++ l.take c := by
    rw [List.rotate_eq_drop_append_take (le_of_lt h), List.drop_eq_getElem_cons h,
      List.cons_append, List.drop_succ_cons, List.drop_zero]
  rcases Nat.lt_or_ge (c + 1) l.length with hlt | hge
  · rw [Nat.mod_eq_of_lt hlt]
    rw [List.rotate_eq_drop_append_take (by rw [List.length_set]; exact le_of_lt hlt)]
    rw [hset]
    have hd : List.drop (c + 1) (l.take c ++ v :: l.drop (c + 1)) = l.drop (c + 1) := by
      rw [show l.take c ++ v :: l.drop (c + 1) = (l.take c ++ [v]) ++ l.drop (c + 1) by simp]
      exact List.drop_left' hsplitlen
    have htk : List.take (c + 1) (l.take c ++ v :: l.drop (c + 1)) = l.take c ++ [v] := by
      rw [show l.take c ++ v :: l.drop (c + 1) = (l.take c ++ [v]) ++ l.drop (c + 1) by simp]
      exact List.take_left' hsplitlen
    rw [hd, htk, hRHS, List.append_assoc]
  · have hceq : c + 1 = l.length := by omega
    rw [hceq, Nat.mod_self, List.rotate_zero, hset]
    have hnil : l.drop (c + 1) = [] := List.drop_eq_nil_of_le (by omega)
    rw [hnil] at hRHS ⊢
    rw [hRHS]
    simp

/-- C10 counterexample: `PD.average` is not the arithmetic mean of the ten
most recent samples: `PD.sum / PD.avgWindow` is a C integer division, so a
single sample of `15` into a zeroed buffer yields `average = 1`, while the
arithmetic mean of the window is `3/2`. -/
theorem claim_C10_counterexample :
    (update_Photodiode PD_init 15 0).average = 1
  ∧ ((PD_window (update_Photodiode PD_init 15 0)).sum : ℚ) / (PD_init.avgWindow : ℚ) = 3/2
  ∧ (1 : ℚ) ≠ 3/2 := by
  have hsum : PD_newSum PD_init 15 = 15 := by decide
  refine ⟨?_, ?_, by norm_num⟩
  · show PD_newAverage PD_init 15 = 1
    rw [PD_newAverage, hsum, show Int.tdiv (15 : ℤ) ((PD_init.avgWindow : ℕ) : ℤ) = 1 from by decide]
    norm_num
  · rw [show (PD_window (update_Photodiode PD_init 15 0)).sum = 15 from by decide]
    norm_num [PD_init]

/-- C10 amended: every `update_Photodiode` call preserves the ring-buffer
invariant (counter in `[0, avgWindow)`, `sum` equal to the buffer sum), the
window of stored samples slides by exactly one (oldest out, new raw sample
in), and the computed `average` equals the *integer-truncated* quotient of
the window sum by `avgWindow` (the floor of the arithmetic mean for
nonnegative sums) rather than the exact arithmetic mean. -/
theorem claim_C10_ring_buffer (pd : Photodiode) (rawPD rawPot : ℤ)
    (h : PD_Inv pd) :
    PD_Inv (update_Photodiode pd rawPD rawPot)
  ∧ PD_window (update_Photodiode pd rawPD rawPot) = (PD_window pd).drop 1 ++ [rawPD]
  ∧ (update_Photodiode pd rawPD rawPot).average
      = ((Int.tdiv ((PD_window (update_Photodiode pd rawPD rawPot)).sum)
            (pd.avgWindow : ℤ) : ℤ) : ℚ) := by
  obtain ⟨hl, hcnt, hsum⟩ := h
  have hc' : pd.counter < pd.values.length := by rw [hl]; exact hcnt
  have hvals : (update_Photodiode pd rawPD rawPot).values
      = pd.values.set pd.counter rawPD := rfl
  have hwin : PD_window (update_Photodiode pd rawPD rawPot)
      = (PD_window pd).drop 1 ++ [rawPD] := by
    have hmod : PD_newCounter pd = (pd.counter + 1) % pd.values.length := by
      rw [PD_newCounter, hl]
      rcases Nat.lt_or_ge (pd.counter + 1) pd.avgWindow with hlt | hge
      · rw [if_neg (by omega), Nat.mod_eq_of_lt hlt]
      · rw [if_pos (by omega), show pd.counter + 1 = pd.avgWindow by omega, Nat.mod_self]
    show (pd.values.set pd.counter rawPD).rotate (PD_newCounter pd) = _
    rw [hmod]
    exact rotate_set_succ pd.values pd.counter rawPD hc'
  have hwsum : (PD_window (update_Photodiode pd rawPD rawPot)).sum
      = (pd.values.set pd.counter rawPD).sum := by
    show ((pd.values.set pd.counter rawPD).rotate (PD_newCounter pd)).sum = _
    exact (List.rotate_perm _ _).sum_eq
  have hnewsum : (update_Photodiode pd rawPD rawPot).sum
      = (pd.values.set pd.counter rawPD).sum := by
    show PD_newSum pd rawPD = _
    rw [PD_newSum, list_sum_set pd.values pd.counter rawPD hc', hsum]
  refine ⟨⟨?_, ?_, ?_⟩, hwin, ?_⟩
  · show (pd.values.set pd.counter rawPD).length = pd.avgWindow
    rw [List.length_set, hl]
  · show PD_newCounter pd < pd.avgWindow
    rw [PD_newCounter]
    split_ifs with hw
    · omega
    · omega
  · rw [hnewsum, hvals]
  · show ((Int.tdiv (PD_newSum pd rawPD) ((pd.avgWindow : ℕ) : ℤ) : ℤ) : ℚ) = _
    rw [show PD_newSum pd rawPD = (pd.values.set pd.counter rawPD).sum from by
        rw [PD_newSum, list_sum_set pd.values pd.counter rawPD hc', hsum],
      hwsum]

/-- C10 witness: the invariant holds for the initial photodiode state and is
preserved through a concrete tick whose window slides in the new sample. -/
theorem claim_C10_witness :
    PD_Inv PD_init
  ∧ PD_Inv (update_Photodiode PD_init 7 0)
  ∧ PD_window (update_Photodiode PD_init 7 0) = (PD_window PD_init).drop 1 ++ [7] := by
  have h0 : PD_Inv PD_init := ⟨by decide, by decide, by decide⟩
  have h := claim_C10_ring_buffer PD_init 7 0 h0
  exact ⟨h0, h.1, h.2.1⟩

end Spikeling
